import Mathlib

/-!
Verification of the event-tracking workflow of the 2025-hackathon-demo
repository, a Slack bot that tracks reactions on posted topics and turns
threaded replies into calendar events.

Shallow embedding of:
  - src/shared/calendar_utils.py     (parse_japanese_datetime, parse_duration,
                                      calculate_end_time)
  - src/shared/database.py           (the DynamoDB access layer, modelled as a
                                      list-backed key/value store)
  - src/lambdas/reaction_handler/handler.py
                                     (handle_reaction_added,
                                      extract_datetime_from_message,
                                      extract_duration_from_message,
                                      handle_schedule_request)

External collaborators (Slack API, Google Calendar API) are modelled as
oracles supplied in an environment record; a call either returns a value or
raises, mirroring the Python wrappers which re-raise SlackApiError as a
plain Exception.  Python dict results are modelled as structures; machine
integers do not occur (all arithmetic is small and exact).
-/

/-- Result of parsing a datetime: the fields of the Python `datetime` object
(Asia/Tokyo localisation does not change the broken-down fields). -/
structure PDateTime where
  year : Nat
  month : Nat
  day : Nat
  hour : Nat
  minute : Nat
  second : Nat
deriving Repr, DecidableEq

/-- Python ASCII whitespace as matched by the `\s` regex class and `str.strip`
(unicode whitespace beyond ASCII is not modelled; no input in this
development contains any). -/
def isSpaceChar (c : Char) : Bool :=
  c = ' ' || c = '\t' || c = '\n' || c = '\r' || c = '\x0b' || c = '\x0c'

/-- Python `str.strip()` on a list of characters. -/
def pyStripL (cs : List Char) : List Char :=
  ((cs.dropWhile isSpaceChar).reverse.dropWhile isSpaceChar).reverse

def digitVal (c : Char) : Nat := c.toNat - 48

/-- Maximal run of leading decimal digits, as digit values. -/
def takeDigitRun : List Char → List Nat × List Char
  | [] => ([], [])
  | c :: cs =>
    if c.isDigit then
      let (ds, rest) := takeDigitRun cs
      (digitVal c :: ds, rest)
    else ([], c :: cs)

def digitsToNat (ds : List Nat) : Nat := ds.foldl (fun a d => 10 * a + d) 0

/-- Regex `(\d+)`: nonempty maximal digit run, converted by Python `int`. -/
def scanNum (cs : List Char) : Option (Nat × List Char) :=
  match takeDigitRun cs with
  | ([], _) => none
  | (ds, rest) => some (digitsToNat ds, rest)

/-- A one-or-two digit strptime field.  CPython compiles e.g. `%m` to the
regex `1[0-2]|0[1-9]|[1-9]`: two digits are consumed when their value
satisfies `twoOk`, otherwise a single digit satisfying `oneOk`. -/
def scanField (twoOk oneOk : Nat → Bool) : List Char → Option (Nat × List Char)
  | c1 :: c2 :: rest =>
    if c1.isDigit && c2.isDigit && twoOk (10 * digitVal c1 + digitVal c2) then
      some (10 * digitVal c1 + digitVal c2, rest)
    else if c1.isDigit && oneOk (digitVal c1) then
      some (digitVal c1, c2 :: rest)
    else none
  | [c1] =>
    if c1.isDigit && oneOk (digitVal c1) then some (digitVal c1, []) else none
  | [] => none

def scanMonth : List Char → Option (Nat × List Char) :=
  scanField (fun n => 1 ≤ n && n ≤ 12) (fun n => 1 ≤ n)

def scanDay : List Char → Option (Nat × List Char) :=
  scanField (fun n => 1 ≤ n && n ≤ 31) (fun n => 1 ≤ n)

def scanHour : List Char → Option (Nat × List Char) :=
  scanField (fun n => n ≤ 23) (fun _ => true)

def scanMinute : List Char → Option (Nat × List Char) :=
  scanField (fun n => n ≤ 59) (fun _ => true)

/-- strptime `%S` accepts 60/61 in the regex; the later `datetime`
construction rejects them (second must be at most 59). -/
def scanSecond : List Char → Option (Nat × List Char) :=
  scanField (fun n => n ≤ 61) (fun _ => true)

/-- strptime `%Y`: exactly four digits. -/
def scanYear4 : List Char → Option (Nat × List Char)
  | a :: b :: c :: d :: rest =>
    if a.isDigit && b.isDigit && c.isDigit && d.isDigit then
      some (digitsToNat [digitVal a, digitVal b, digitVal c, digitVal d], rest)
    else none
  | _ => none

def expectChar (c : Char) : List Char → Option (List Char)
  | x :: rest => if x = c then some rest else none
  | [] => none

/-- Regex `\s+` (at least one whitespace char, consumed maximally). -/
def skipSpaces1 : List Char → Option (List Char)
  | c :: cs => if isSpaceChar c then some (cs.dropWhile isSpaceChar) else none
  | [] => none

def isLeapYear (y : Nat) : Bool :=
  (y % 4 = 0 && y % 100 ≠ 0) || y % 400 = 0

def daysInMonth (y m : Nat) : Nat :=
  if m = 2 then (if isLeapYear y then 29 else 28)
  else if m = 4 ∨ m = 6 ∨ m = 9 ∨ m = 11 then 30
  else 31

/-- Validity check performed by the Python `datetime` constructor (and by
`datetime.replace`).  The year bounds are written last so that for concrete
month/day/hour/minute the check reduces to just the year bounds. -/
def validDT (m d h mi s y : Nat) : Bool :=
  decide (1 ≤ m) && decide (m ≤ 12) && decide (1 ≤ d) &&
  decide (d ≤ daysInMonth y m) && decide (h ≤ 23) && decide (mi ≤ 59) &&
  decide (s ≤ 59) && decide (1 ≤ y) && decide (y ≤ 9999)

/-- strptime with format `%m SEP %d  %H:%M` (patterns 1 and 9 of
`parse_japanese_datetime`, with SEP being `/` or `-`).  strptime builds the
date at year 1900, hence the 1900 validity check; the year is substituted
afterwards by `withYear`. -/
def pat_md_hm (sep : Char) (cs : List Char) : Option (Nat × Nat × Nat × Nat) := do
  let (m, cs) ← scanMonth cs
  let cs ← expectChar sep cs
  let (d, cs) ← scanDay cs
  let cs ← skipSpaces1 cs
  let (h, cs) ← scanHour cs
  let cs ← expectChar ':' cs
  let (mi, cs) ← scanMinute cs
  if cs.isEmpty && validDT m d h mi 0 1900 then some (m, d, h, mi) else none

/-- strptime with format `%Y SEP %m SEP %d  %H:%M` (patterns 2 and 8). -/
def pat_ymd_hm (sep : Char) (cs : List Char) : Option PDateTime := do
  let (y, cs) ← scanYear4 cs
  let cs ← expectChar sep cs
  let (m, cs) ← scanMonth cs
  let cs ← expectChar sep cs
  let (d, cs) ← scanDay cs
  let cs ← skipSpaces1 cs
  let (h, cs) ← scanHour cs
  let cs ← expectChar ':' cs
  let (mi, cs) ← scanMinute cs
  if cs.isEmpty && validDT m d h mi 0 y then some ⟨y, m, d, h, mi, 0⟩ else none

/-- strptime with format `%m/%d %H:%M:%S` (pattern 3). -/
def pat_md_hms (cs : List Char) : Option (Nat × Nat × Nat × Nat × Nat) := do
  let (m, cs) ← scanMonth cs
  let cs ← expectChar '/' cs
  let (d, cs) ← scanDay cs
  let cs ← skipSpaces1 cs
  let (h, cs) ← scanHour cs
  let cs ← expectChar ':' cs
  let (mi, cs) ← scanMinute cs
  let cs ← expectChar ':' cs
  let (s, cs) ← scanSecond cs
  if cs.isEmpty && validDT m d h mi s 1900 then some (m, d, h, mi, s) else none

/-- strptime with format `%Y/%m/%d %H:%M:%S` (pattern 4). -/
def pat_ymd_hms (cs : List Char) : Option PDateTime := do
  let (y, cs) ← scanYear4 cs
  let cs ← expectChar '/' cs
  let (m, cs) ← scanMonth cs
  let cs ← expectChar '/' cs
  let (d, cs) ← scanDay cs
  let cs ← skipSpaces1 cs
  let (h, cs) ← scanHour cs
  let cs ← expectChar ':' cs
  let (mi, cs) ← scanMinute cs
  let cs ← expectChar ':' cs
  let (s, cs) ← scanSecond cs
  if cs.isEmpty && validDT m d h mi s y then some ⟨y, m, d, h, mi, s⟩ else none

/-- `dt.replace(year=current_year)` applied to a year-less pattern result:
re-validates at the current year (which can only fail on the year bounds,
day-of-month having already been checked against non-leap 1900). -/
def withYear (cy : Nat) : Option (Nat × Nat × Nat × Nat) → Option PDateTime
  | none => none
  | some (m, d, h, mi) =>
    if validDT m d h mi 0 cy then some ⟨cy, m, d, h, mi, 0⟩ else none

def withYearS (cy : Nat) : Option (Nat × Nat × Nat × Nat × Nat) → Option PDateTime
  | none => none
  | some (m, d, h, mi, s) =>
    if validDT m d h mi s cy then some ⟨cy, m, d, h, mi, s⟩ else none

/-- Regex pattern 5, `(\d+)月(\d+)日\s+(\d+)時(?:(\d+)分)?`, matched as a
prefix (`re.match`); the datetime is then built at the current year and the
pattern is skipped when construction raises ValueError. -/
def pat_jp_hour (cy : Nat) (cs : List Char) : Option PDateTime := do
  let (m, cs) ← scanNum cs
  let cs ← expectChar '月' cs
  let (d, cs) ← scanNum cs
  let cs ← expectChar '日' cs
  let cs ← skipSpaces1 cs
  let (h, cs) ← scanNum cs
  let cs ← expectChar '時' cs
  let mi := (do
    let (mi, cs2) ← scanNum cs
    let _ ← expectChar '分' cs2
    pure mi).getD 0
  if validDT m d h mi 0 cy then some ⟨cy, m, d, h, mi, 0⟩ else none

/-- Regex pattern 6, `(\d+)月(\d+)日\s+(\d+):(\d+)`, matched as a prefix. -/
def pat_jp_colon (cy : Nat) (cs : List Char) : Option PDateTime := do
  let (m, cs) ← scanNum cs
  let cs ← expectChar '月' cs
  let (d, cs) ← scanNum cs
  let cs ← expectChar '日' cs
  let cs ← skipSpaces1 cs
  let (h, cs) ← scanNum cs
  let cs ← expectChar ':' cs
  let (mi, _) ← scanNum cs
  if validDT m d h mi 0 cy then some ⟨cy, m, d, h, mi, 0⟩ else none

/-- Regex pattern 7, `(\d+)年(\d+)月(\d+)日\s+(\d+):(\d+)`, matched as a
prefix; the year comes from the text. -/
def pat_jp_year (cs : List Char) : Option PDateTime := do
  let (y, cs) ← scanNum cs
  let cs ← expectChar '年' cs
  let (m, cs) ← scanNum cs
  let cs ← expectChar '月' cs
  let (d, cs) ← scanNum cs
  let cs ← expectChar '日' cs
  let cs ← skipSpaces1 cs
  let (h, cs) ← scanNum cs
  let cs ← expectChar ':' cs
  let (mi, _) ← scanNum cs
  if validDT m d h mi 0 y then some ⟨y, m, d, h, mi, 0⟩ else none

/-- The nine patterns of `parse_japanese_datetime`, tried in source order on
the stripped text; first success wins. -/
def patChain (cy : Nat) (cs : List Char) : Option PDateTime :=
  withYear cy (pat_md_hm '/' cs) <|>
  pat_ymd_hm '/' cs <|>
  withYearS cy (pat_md_hms cs) <|>
  pat_ymd_hms cs <|>
  pat_jp_hour cy cs <|>
  pat_jp_colon cy cs <|>
  pat_jp_year cs <|>
  pat_ymd_hm '-' cs <|>
  withYear cy (pat_md_hm '-' cs)

/-- calendar_utils.parse_japanese_datetime: rejects the empty string, strips,
then tries the nine patterns.  `cy` is `datetime.now().year` at call time. -/
def parse_japanese_datetime (cy : Nat) (s : String) : Option PDateTime :=
  match s.data with
  | [] => none
  | cs => patChain cy (pyStripL cs)

/-- Duration pattern 1, `(\d+)時間(?:(\d+)分)?` (prefix match). -/
def dur_hour_min (cs : List Char) : Option Int := do
  let (h, cs) ← scanNum cs
  let cs ← expectChar '時' cs
  let cs ← expectChar '間' cs
  let mi := (do
    let (mi, cs2) ← scanNum cs
    let _ ← expectChar '分' cs2
    pure mi).getD 0
  pure (h * 60 + mi : Nat)

/-- Duration pattern 2, `(\d+)分` (prefix match). -/
def dur_min (cs : List Char) : Option Int := do
  let (n, cs) ← scanNum cs
  let _ ← expectChar '分' cs
  pure (n : Nat)

/-- Duration pattern 3, `(\d+\.?\d*)時間` (prefix match): fractional hours.
Python computes `int(float(group) * 60)`; the float values occurring here are
decimal and truncation towards zero on a nonnegative value is floor, so the
result is modelled exactly as `digits * 60 / 10 ^ fractionLength`. -/
def dur_frac_hour (cs : List Char) : Option Int := do
  let (ids, cs) := takeDigitRun cs
  if ids.isEmpty then none else do
  let (fds, cs) ←
    match cs with
    | '.' :: cs2 => some (takeDigitRun cs2)
    | _ => some (([] : List Nat), cs)
  let cs ← expectChar '時' cs
  let _ ← expectChar '間' cs
  pure ((digitsToNat (ids ++ fds) * 60 / 10 ^ fds.length : Nat) : Int)

/-- Duration pattern 4, Python `int(text)`: optional sign then digits
(PEP 515 underscore separators are not modelled; no input here uses them). -/
def pyInt (cs : List Char) : Option Int :=
  match cs with
  | '-' :: rest =>
    match takeDigitRun rest with
    | ([], _) => none
    | (ds, []) => some (-(digitsToNat ds : Int))
    | (_, _ :: _) => none
  | '+' :: rest =>
    match takeDigitRun rest with
    | ([], _) => none
    | (ds, []) => some ((digitsToNat ds : Nat) : Int)
    | (_, _ :: _) => none
  | _ =>
    match takeDigitRun cs with
    | ([], _) => none
    | (ds, []) => some ((digitsToNat ds : Nat) : Int)
    | (_, _ :: _) => none

/-- calendar_utils.parse_duration: rejects the empty string, strips, then
tries hours-with-optional-minutes, minutes-only, fractional hours, bare
integer; first match wins. -/
def parse_duration (s : String) : Option Int :=
  match s.data with
  | [] => none
  | cs0 =>
    let cs := pyStripL cs0
    dur_hour_min cs <|> dur_min cs <|> dur_frac_hour cs <|> pyInt cs

/-- Python `text.split('\n')` (empty pieces kept). -/
def splitOnNl : List Char → List (List Char)
  | [] => [[]]
  | '\n' :: cs => [] :: splitOnNl cs
  | c :: cs =>
    match splitOnNl cs with
    | [] => [c] :: []
    | l :: ls => (c :: l) :: ls

/-- reaction_handler.extract_datetime_from_message: try each line stripped
(high confidence), then the whole stripped text (medium), else none/low. -/
def extract_datetime_from_message (cy : Nat) (text : String) :
    Option PDateTime × String :=
  match (splitOnNl text.data).findSome?
      (fun l => parse_japanese_datetime cy (String.mk (pyStripL l))) with
  | some dt => (some dt, "high")
  | none =>
    match parse_japanese_datetime cy (String.mk (pyStripL text.data)) with
    | some dt => (some dt, "medium")
    | none => (none, "low")

/-- reaction_handler.extract_duration_from_message: parsed duration, with
falsy results (None or 0) defaulted to 60 minutes. -/
def extract_duration_from_message (text : String) : Int :=
  match parse_duration text with
  | none => 60
  | some d => if d = 0 then 60 else d

/-- Days since 1970-01-01 of a civil date (standard civil-from-days
conversion, used to model Python datetime + timedelta arithmetic). -/
def daysFromCivil (y m d : Nat) : Int :=
  let yi : Int := (y : Int) - (if m ≤ 2 then 1 else 0)
  let era : Int := Int.fdiv yi 400
  let yoe : Int := yi - era * 400
  let mp : Int := Int.emod ((m : Int) + 9) 12
  let doy : Int := Int.fdiv (153 * mp + 2) 5 + (d : Int) - 1
  let doe : Int := yoe * 365 + Int.fdiv yoe 4 - Int.fdiv yoe 100 + doy
  era * 146097 + doe - 719468

/-- Inverse of `daysFromCivil`. -/
def civilFromDays (z0 : Int) : Nat × Nat × Nat :=
  let z := z0 + 719468
  let era := Int.fdiv z 146097
  let doe := z - era * 146097
  let yoe := Int.fdiv (doe - Int.fdiv doe 1460 + Int.fdiv doe 36524 - Int.fdiv doe 146096) 365
  let y := yoe + era * 400
  let doy := doe - (365 * yoe + Int.fdiv yoe 4 - Int.fdiv yoe 100)
  let mp := Int.fdiv (5 * doy + 2) 153
  let d := doy - Int.fdiv (153 * mp + 2) 5 + 1
  let m := mp + (if mp < 10 then 3 else -9)
  ((y + (if m ≤ 2 then 1 else 0)).toNat, m.toNat, d.toNat)

/-- calendar_utils.calculate_end_time: `start + timedelta(minutes=duration)`
(naive field arithmetic; Asia/Tokyo has no DST transitions in the modern
era, so pytz-localised addition behaves identically). -/
def calculate_end_time (dt : PDateTime) (durationMinutes : Int) : PDateTime :=
  let total : Int :=
    daysFromCivil dt.year dt.month dt.day * 1440 +
      (dt.hour : Int) * 60 + (dt.minute : Int) + durationMinutes
  let dayN := Int.fdiv total 1440
  let rem := (total - dayN * 1440).toNat
  let (y, m, d) := civilFromDays dayN
  ⟨y, m, d, rem / 60, rem % 60, dt.second⟩

/-- models.Reaction, as stored in the `reactions` list of an EventTracking
item by database.add_reaction_to_event. -/
structure ReactionRecord where
  user_id : String
  user_email : String
  reaction : String
  timestamp : String
deriving Repr, DecidableEq

/-- models.EventTracking (the DynamoDB item; created_at/updated_at carry no
logic and are omitted). -/
structure EventTracking where
  event_tracking_id : String
  slack_message_ts : String
  channel_id : String
  topic_id : Option String
  event_title : Option String
  status : String
  reactions : List ReactionRecord
  calendar_event_id : Option String
deriving Repr, DecidableEq

/-- The events table of the persistence store (external collaborator),
modelled as a list of items. -/
abbrev DB := List EventTracking

/-- database.get_event_by_message (query on the slack_message_ts index). -/
def get_event_by_message (db : DB) (ts ch : String) : Option EventTracking :=
  db.find? (fun e => e.slack_message_ts == ts && e.channel_id == ch)

/-- database.get_event (get_item by primary key). -/
def get_event (db : DB) (i : String) : Option EventTracking :=
  db.find? (fun e => e.event_tracking_id == i)

/-- database.add_reaction_to_event: appends one reaction record to the
item's `reactions` list. -/
def add_reaction_to_event (db : DB) (i u em r now : String) : DB :=
  db.map (fun e =>
    if e.event_tracking_id == i then
      { e with reactions := e.reactions ++ [⟨u, em, r, now⟩] }
    else e)

/-- database.update_event_status: sets `status` and any supplied extra
fields (calendar_event_id, event_title). -/
def update_event_status (db : DB) (i st : String)
    (cev title : Option String) : DB :=
  db.map (fun e =>
    if e.event_tracking_id == i then
      { e with status := st,
               calendar_event_id := cev <|> e.calendar_event_id,
               event_title := title <|> e.event_title }
    else e)

/-- A chat message posted through SlackClient.post_message (Block Kit
payloads carry no workflow logic and are not modelled). -/
structure PostMsg where
  channel : String
  text : String
  thread_ts : Option String
deriving Repr, DecidableEq

/-- The result dict returned by the handlers (only keys that the handlers
actually set). -/
structure HandlerResult where
  success : Bool
  action : Option String := none
  reason : Option String := none
  error : Option String := none
  reaction_count : Option Nat := none
  calendar_event_id : Option String := none
deriving Repr, DecidableEq

/-- Python truthiness of an optional string (`None` and the empty string are
falsy). -/
def truthy : Option String → Bool
  | none => false
  | some s => decide (s ≠ "")

/-- Message of the AttributeError raised when `.get` is called on None. -/
def noneGetMsg : String := "'NoneType' object has no attribute 'get'"

/-- The reaction_added payload fields read by handle_reaction_added. -/
structure ReactionEventData where
  reaction : Option String
  user : Option String
  channel : Option String
  ts : Option String
deriving Repr, DecidableEq

/-- External-world behaviour for one handle_reaction_added invocation:
threshold from the environment variable, the Slack user-info call (raises
or yields the resolved email) and the Slack post call for the proposal
message (raises, or returns a response whose `ok` field is given). -/
structure ReactionEnv where
  threshold : Nat
  userInfo : String → Except String String
  postResult : Except String Bool
  now : String

/-- `len(set(r['user_id'] for r in reactions))`. -/
def distinctUserCount (rs : List ReactionRecord) : Nat :=
  ((rs.map (·.user_id)).dedup).length

/-- Text of the meeting proposal message, which states the participant
count. -/
def proposalText (n : Nat) : String :=
  "この話題、盛り上がってますね！（" ++ toString n ++ "名が興味あり）"

/-- reaction_handler.handle_reaction_added.  Returns the result dict, the
events table after the invocation, and the list of Slack post calls made. -/
def handle_reaction_added (env : ReactionEnv) (ev : ReactionEventData)
    (db : DB) : HandlerResult × DB × List PostMsg :=
  if !(truthy ev.reaction && truthy ev.user && truthy ev.channel && truthy ev.ts) then
    ({ success := false, error := some "Missing required fields" }, db, [])
  else
    let user_id := ev.user.getD ""
    let channel_id := ev.channel.getD ""
    let message_ts := ev.ts.getD ""
    match get_event_by_message db message_ts channel_id with
    | none =>
      ({ success := true, action := some "ignored", reason := some "not tracked" }, db, [])
    | some et =>
      match env.userInfo user_id with
      | .error e => ({ success := false, error := some e }, db, [])
      | .ok user_email =>
        let db1 := add_reaction_to_event db et.event_tracking_id user_id
          user_email (ev.reaction.getD "") env.now
        match get_event db1 et.event_tracking_id with
        | none => ({ success := false, error := some noneGetMsg }, db1, [])
        | some et2 =>
          let reaction_count := distinctUserCount et2.reactions
          if reaction_count ≥ env.threshold && et2.status == "collecting_reactions" then
            let msg : PostMsg := ⟨channel_id, proposalText reaction_count, some message_ts⟩
            match env.postResult with
            | .error e => ({ success := false, error := some e }, db1, [msg])
            | .ok ok =>
              if ok then
                ({ success := true, action := some "meeting_proposed",
                   reaction_count := some reaction_count },
                 update_event_status db1 et.event_tracking_id "scheduling" none none,
                 [msg])
              else
                ({ success := true, action := some "reaction_recorded",
                   reaction_count := some reaction_count }, db1, [msg])
          else
            ({ success := true, action := some "reaction_recorded",
               reaction_count := some reaction_count }, db1, [])

/-- A sequence of reaction-added webhook deliveries, each with its own
external-world behaviour, applied in order.  Collects all Slack posts and
the per-invocation results. -/
def runReactionOps : List (ReactionEnv × ReactionEventData) → DB →
    DB × List PostMsg × List HandlerResult
  | [], db => (db, [], [])
  | (env, ev) :: rest, db =>
    let (r, db1, ps) := handle_reaction_added env ev db
    let (db2, ps2, rs2) := runReactionOps rest db1
    (db2, ps ++ ps2, r :: rs2)

/-- A topic item, as read by handle_schedule_request (`content` accessed
with a dict-get default). -/
structure Topic where
  content : Option String
deriving Repr, DecidableEq

/-- Arguments of calendar_client.CalendarClient.create_event as invoked by
handle_schedule_request. -/
structure CalendarReq where
  summary : String
  start_time : PDateTime
  end_time : PDateTime
  description : String
  location : String
  attendees : List String
deriving Repr, DecidableEq

/-- The calendar event dict returned by create_event (fields used by the
handler). -/
structure CalendarEvent where
  id : String
  html_link : String
deriving Repr, DecidableEq

/-- External-world behaviour for one handle_schedule_request invocation:
the current year (for datetime parsing), the topics table, the Slack post
call (outcome may depend on the message; the response dict is unused by
this handler) and the calendar create_event call. -/
structure ScheduleEnv where
  currentYear : Nat
  getTopic : String → Option Topic
  post : PostMsg → Except String Unit
  createEvent : CalendarReq → Except String CalendarEvent
  now : String

def datetimeRepromptText : String :=
  "日時が認識できませんでした。「12/5 14:00」や「12月5日 14時」のような形式で教えてください。"

def noAttendeesText : String := "参加者のメールアドレスが取得できませんでした。"

def calendarCreatedText : String := "カレンダーにイベントを作成しました！"

def errorOccurredText : String := "エラーが発生しました"

/-- Back-reference description put into the calendar event. -/
def scheduleDescription (channel_id thread_ts : String) : String :=
  "Slackの話題から作成されたミーティングです。\n\n元のメッセージ: https://slack.com/archives/" ++
    channel_id ++ "/p" ++ String.mk (thread_ts.data.filter (· ≠ '.'))

/-- Attendee derivation of handle_schedule_request:
`list(set(r['user_email'] for r in reactions if r.get('user_email')))`
(the set is modelled as the deduplicated list). -/
def attendeeEmails (et : EventTracking) : List String :=
  ((et.reactions.filter (fun r => !r.user_email.data.isEmpty)).map
    (·.user_email)).dedup

/-- Outcome of a handle_schedule_request invocation: the result dict (or an
exception that escaped the handler), the events table afterwards, all Slack
post calls and all calendar create_event calls made. -/
structure SchedOutcome where
  result : Except String HandlerResult
  db : DB
  posts : List PostMsg
  calendarCalls : List CalendarReq
deriving Repr

/-- Body of reaction_handler.handle_schedule_request (the code inside its
try block); a `.error` result is an exception reaching the except clause. -/
def handle_schedule_request_body (env : ScheduleEnv)
    (event_tracking_id channel_id thread_ts message_text : String)
    (db : DB) : SchedOutcome :=
  match get_event db event_tracking_id with
  | none => ⟨.ok { success := false, error := some "Event not found" }, db, [], []⟩
  | some et =>
    if et.status == "scheduling" then
      match (extract_datetime_from_message env.currentYear message_text).1 with
      | none =>
        let msg : PostMsg := ⟨channel_id, datetimeRepromptText, some thread_ts⟩
        match env.post msg with
        | .error e => ⟨.error e, db, [msg], []⟩
        | .ok _ =>
          ⟨.ok { success := true, action := some "asked_datetime_again" }, db, [msg], []⟩
      | some parsed_dt =>
        let duration := extract_duration_from_message message_text
        let end_dt := calculate_end_time parsed_dt duration
        let titleE : Except String String :=
          if truthy et.topic_id then
            match env.getTopic (et.topic_id.getD "") with
            | none => .error noneGetMsg
            | some topic =>
              .ok (String.mk (((topic.content.getD "ディスカッション").data.take 50)) ++
                " - ミーティング")
          else .ok "チームミーティング"
        match titleE with
        | .error e => ⟨.error e, db, [], []⟩
        | .ok event_title =>
          let attendee_emails := attendeeEmails et
          if attendee_emails.isEmpty then
            let msg : PostMsg := ⟨channel_id, noAttendeesText, some thread_ts⟩
            match env.post msg with
            | .error e => ⟨.error e, db, [msg], []⟩
            | .ok _ => ⟨.ok { success := false, error := some "No attendees" }, db, [msg], []⟩
          else
            let req : CalendarReq :=
              ⟨event_title, parsed_dt, end_dt,
               scheduleDescription channel_id thread_ts, "", attendee_emails⟩
            match env.createEvent req with
            | .error e => ⟨.error e, db, [], [req]⟩
            | .ok calendar_event =>
              let db1 := update_event_status db event_tracking_id "completed"
                (some calendar_event.id) (some event_title)
              let msg : PostMsg := ⟨channel_id, calendarCreatedText, some thread_ts⟩
              match env.post msg with
              | .error e => ⟨.error e, db1, [msg], [req]⟩
              | .ok _ =>
                ⟨.ok { success := true, action := some "event_created",
                       calendar_event_id := some calendar_event.id },
                 db1, [msg], [req]⟩
    else
      ⟨.ok { success := true, action := some "no_action" }, db, [], []⟩

/-- reaction_handler.handle_schedule_request: the body wrapped in the except
clause, which posts a user-facing error notice and converts the exception
into a failure result; an exception raised by that post itself escapes. -/
def handle_schedule_request (env : ScheduleEnv)
    (event_tracking_id channel_id thread_ts message_text : String)
    (db : DB) : SchedOutcome :=
  let o := handle_schedule_request_body env event_tracking_id channel_id
    thread_ts message_text db
  match o.result with
  | .ok _ => o
  | .error e =>
    let msg : PostMsg := ⟨channel_id, errorOccurredText, some thread_ts⟩
    match env.post msg with
    | .error e2 => ⟨.error e2, o.db, o.posts ++ [msg], o.calendarCalls⟩
    | .ok _ =>
      ⟨.ok { success := false, error := some e }, o.db, o.posts ++ [msg], o.calendarCalls⟩

/-- The topic reference of an EventTracking resolves without raising: either
no topic id is set (falsy), or the topics table has the item. -/
def topicResolves (env : ScheduleEnv) (et : EventTracking) : Prop :=
  truthy et.topic_id = false ∨ ∃ tp, env.getTopic (et.topic_id.getD "") = some tp

def etSched : EventTracking :=
  ⟨"E1", "111.222", "C1", none, none, "scheduling", [⟨"U1", "u1@x.com", "+1", "t1"⟩], none⟩

def etSchedNoMail : EventTracking :=
  { etSched with reactions := [⟨"U1", "", "+1", "t1"⟩] }

def etSchedTopic : EventTracking :=
  { etSched with topic_id := some "T9" }

def envCalFail : ScheduleEnv :=
  ⟨2025, fun _ => none, fun _ => .ok (), fun _ => .error "cal down", "T2"⟩

def envC4 : ScheduleEnv :=
  ⟨2025, fun _ => none,
   fun m => if m.text == calendarCreatedText then .error "post boom" else .ok (),
   fun _ => .ok ⟨"CAL1", "http://cal"⟩, "T2"⟩

def envPlain : ScheduleEnv :=
  ⟨2025, fun _ => none, fun _ => .ok (), fun _ => .ok ⟨"CAL1", "http://cal"⟩, "T2"⟩


/-- The acting user of a reaction-added delivery (`event_data.get('user')`,
defaulted like the handler does after validation). -/
def opUser (p : ReactionEnv × ReactionEventData) : String := p.2.user.getD ""

/-- A well-formed reaction-added delivery for the item posted at (ts, ch):
all required payload fields present and truthy, targeting that message, and
the Slack user-info call succeeding. -/
def WfOp (ts ch : String) (p : ReactionEnv × ReactionEventData) : Prop :=
  truthy p.2.reaction = true ∧ truthy p.2.user = true ∧
  p.2.channel = some ch ∧ ch ≠ "" ∧
  p.2.ts = some ts ∧ ts ≠ "" ∧
  ∃ em, p.1.userInfo (p.2.user.getD "") = .ok em

/-- The EventTracking after add_reaction_to_event appended one record. -/
def appendReaction (et : EventTracking) (u em r now : String) : EventTracking :=
  { et with reactions := et.reactions ++ [⟨u, em, r, now⟩] }

def etFresh : EventTracking :=
  ⟨"E1", "111.222", "C1", none, none, "collecting_reactions", [], none⟩

def etCollect : EventTracking :=
  ⟨"E1", "111.222", "C1", none, none, "collecting_reactions",
   [⟨"U1", "a@example.com", "+1", "t0"⟩, ⟨"U2", "b@example.com", "+1", "t0"⟩], none⟩

def envR (po : Except String Bool) : ReactionEnv :=
  ⟨3, fun u => .ok (u ++ "@example.com"), po, "T0"⟩

def evR (u : String) : ReactionEventData :=
  ⟨some "+1", some u, some "C1", some "111.222"⟩

def wOps : List (ReactionEnv × ReactionEventData) :=
  [(envR (.ok true), evR "U1"), (envR (.ok true), evR "U2")]

def wOp : ReactionEnv × ReactionEventData := (envR (.ok true), evR "U1")

/-- C8: parse_datetime on "12/5 14:00" gives the current year with month 12,
day 5, 14:00 (for any valid current year); on "2025年12月5日 14:00" gives
exactly 2025-12-05 14:00; and unsupported text gives none, not an error. -/
theorem C8_parse_japanese_datetime :
    (∀ cy : Nat, 1 ≤ cy → cy ≤ 9999 →
      parse_japanese_datetime cy "12/5 14:00" = some ⟨cy, 12, 5, 14, 0, 0⟩) ∧
    (∀ cy : Nat,
      parse_japanese_datetime cy "2025年12月5日 14:00" = some ⟨2025, 12, 5, 14, 0, 0⟩) ∧
    (∀ cy : Nat, parse_japanese_datetime cy "garbage" = none) := by
  refine ⟨?_, fun cy => rfl, fun cy => rfl⟩
  intro cy h1 h2
  have hv : validDT 12 5 14 0 0 cy = true := by
    simp [validDT, daysInMonth]
    omega
  have h3 : withYear cy (some (12, 5, 14, 0)) = some ⟨cy, 12, 5, 14, 0, 0⟩ := by
    simp [withYear, hv]
  show patChain cy (pyStripL ("12/5 14:00".data)) = some ⟨cy, 12, 5, 14, 0, 0⟩
  unfold patChain
  rw [show pat_md_hm '/' (pyStripL ("12/5 14:00".data)) = some (12, 5, 14, 0) from rfl, h3]
  rfl

theorem C8_witness :
    (1 ≤ 2026 ∧ 2026 ≤ 9999 ∧
      parse_japanese_datetime 2026 "12/5 14:00" = some ⟨2026, 12, 5, 14, 0, 0⟩) ∧
    parse_japanese_datetime 2026 "2025年12月5日 14:00" = some ⟨2025, 12, 5, 14, 0, 0⟩ ∧
    parse_japanese_datetime 2026 "garbage" = none :=
  ⟨⟨by decide, by decide,
    C8_parse_japanese_datetime.1 2026 (by decide) (by decide)⟩,
   C8_parse_japanese_datetime.2.1 2026,
   C8_parse_japanese_datetime.2.2 2026⟩

/-- C9: parse_duration on the four sample inputs; the fixed pattern order
(hours-with-optional-minutes, minutes-only, fractional hours, bare integer,
first match wins) is the structure of parse_duration itself. -/
theorem C9_parse_duration :
    parse_duration "2時間30分" = some 150 ∧
    parse_duration "90分" = some 90 ∧
    parse_duration "1.5時間" = some 90 ∧
    parse_duration "garbage" = none :=
  ⟨rfl, rfl, rfl, rfl⟩

/-- C7: a reply without a parseable datetime (no line and not the whole
text) on a scheduling record makes the handler post the re-prompt to the
thread, keep the record unchanged (still scheduling) and report success. -/
theorem C7_reprompt (env : ScheduleEnv) (et : EventTracking) (ch th text : String)
    (hst : et.status = "scheduling")
    (hdt : (extract_datetime_from_message env.currentYear text).1 = none)
    (hpost : env.post ⟨ch, datetimeRepromptText, some th⟩ = .ok ()) :
    handle_schedule_request env et.event_tracking_id ch th text [et] =
      ⟨.ok { success := true, action := some "asked_datetime_again" }, [et],
       [⟨ch, datetimeRepromptText, some th⟩], []⟩ := by
  simp [handle_schedule_request, handle_schedule_request_body, get_event,
    hst, hdt, hpost]

theorem C7_witness :
    handle_schedule_request envCalFail etSched.event_tracking_id "C1" "111.222"
        "garbage" [etSched] =
      ⟨.ok { success := true, action := some "asked_datetime_again" }, [etSched],
       [⟨"C1", datetimeRepromptText, some "111.222"⟩], []⟩ :=
  C7_reprompt envCalFail etSched "C1" "111.222" "garbage" rfl rfl rfl

/-- C5: schedule resolution on a scheduling record whose reactions hold no
non-empty email (given a parseable reply and a resolving topic reference)
fails with "No attendees", makes no calendar call and leaves the record,
hence its scheduling status, unchanged. -/
theorem C5_no_attendees (env : ScheduleEnv) (et : EventTracking)
    (ch th text : String) (dt : PDateTime)
    (hst : et.status = "scheduling")
    (hdt : (extract_datetime_from_message env.currentYear text).1 = some dt)
    (htop : topicResolves env et)
    (hmail : ∀ r ∈ et.reactions, r.user_email = "")
    (hpost : env.post ⟨ch, noAttendeesText, some th⟩ = .ok ()) :
    handle_schedule_request env et.event_tracking_id ch th text [et] =
      ⟨.ok { success := false, error := some "No attendees" }, [et],
       [⟨ch, noAttendeesText, some th⟩], []⟩ := by
  have hatt : attendeeEmails et = [] := by
    unfold attendeeEmails
    have hf : et.reactions.filter (fun r => !r.user_email.data.isEmpty) = [] := by
      rw [List.filter_eq_nil_iff]
      intro r hr
      simp [hmail r hr]
    rw [hf]
    rfl
  by_cases ht : truthy et.topic_id = true
  · rcases htop with htop | ⟨tp, htp⟩
    · rw [htop] at ht; cases ht
    · simp [handle_schedule_request, handle_schedule_request_body, get_event,
        hst, hdt, ht, htp, hatt, hpost]
  · have ht' : truthy et.topic_id = false := by simpa using ht
    simp [handle_schedule_request, handle_schedule_request_body, get_event,
      hst, hdt, ht', hatt, hpost]

theorem C5_witness :
    handle_schedule_request envCalFail etSchedNoMail.event_tracking_id "C1" "111.222"
        "12/10 15:00" [etSchedNoMail] =
      ⟨.ok { success := false, error := some "No attendees" }, [etSchedNoMail],
       [⟨"C1", noAttendeesText, some "111.222"⟩], []⟩ :=
  C5_no_attendees envCalFail etSchedNoMail "C1" "111.222" "12/10 15:00"
    ⟨2025, 12, 10, 15, 0, 0⟩ rfl rfl (Or.inl rfl)
    (by intro r hr; simp [etSchedNoMail, etSched] at hr; subst hr; rfl) rfl

/-- C4 counterexample: when the completion post raises after the calendar
event was created, the exception is caught and reported as a failure, but
the status has already been set to completed — the record is NOT left
unchanged in scheduling as the claim states. -/
theorem C4_counterexample :
    (handle_schedule_request envC4 "E1" "C1" "111.222" "12/10 15:00" [etSched]).result =
      .ok { success := false, error := some "post boom" } ∧
    (handle_schedule_request envC4 "E1" "C1" "111.222" "12/10 15:00" [etSched]).db =
      [{ etSched with status := "completed", event_title := some "チームミーティング",
                      calendar_event_id := some "CAL1" }] :=
  ⟨rfl, rfl⟩

/-- C4 amended: an exception raised before the status update — here the
calendar-gateway call failing — leaves the record unchanged in scheduling,
posts the user-facing error notice (that post itself succeeding) and
returns a failure carrying the error detail. -/
theorem C4_gateway_error (env : ScheduleEnv) (et : EventTracking)
    (ch th text : String) (dt : PDateTime) (e : String)
    (hst : et.status = "scheduling")
    (hdt : (extract_datetime_from_message env.currentYear text).1 = some dt)
    (htop : topicResolves env et)
    (hatt : attendeeEmails et ≠ [])
    (hcal : ∀ req, env.createEvent req = .error e)
    (hpost : env.post ⟨ch, errorOccurredText, some th⟩ = .ok ()) :
    (handle_schedule_request env et.event_tracking_id ch th text [et]).result =
      .ok { success := false, error := some e } ∧
    (handle_schedule_request env et.event_tracking_id ch th text [et]).db = [et] ∧
    (handle_schedule_request env et.event_tracking_id ch th text [et]).posts =
      [⟨ch, errorOccurredText, some th⟩] := by
  have hne : (attendeeEmails et).isEmpty = false := by
    cases hq : attendeeEmails et with
    | nil => exact absurd hq hatt
    | cons a l => rfl
  by_cases ht : truthy et.topic_id = true
  · rcases htop with htop | ⟨tp, htp⟩
    · rw [htop] at ht; cases ht
    · refine ⟨?_, ?_, ?_⟩ <;>
        simp [handle_schedule_request, handle_schedule_request_body, get_event,
          hst, hdt, ht, htp, hne, hcal, hpost]
  · have ht' : truthy et.topic_id = false := by simpa using ht
    refine ⟨?_, ?_, ?_⟩ <;>
      simp [handle_schedule_request, handle_schedule_request_body, get_event,
        hst, hdt, ht', hne, hcal, hpost]

theorem C4_gateway_error_witness :
    (handle_schedule_request envCalFail etSched.event_tracking_id "C1" "111.222"
        "12/10 15:00" [etSched]).result =
      .ok { success := false, error := some "cal down" } ∧
    (handle_schedule_request envCalFail etSched.event_tracking_id "C1" "111.222"
        "12/10 15:00" [etSched]).db = [etSched] ∧
    (handle_schedule_request envCalFail etSched.event_tracking_id "C1" "111.222"
        "12/10 15:00" [etSched]).posts = [⟨"C1", errorOccurredText, some "111.222"⟩] :=
  C4_gateway_error envCalFail etSched "C1" "111.222" "12/10 15:00"
    ⟨2025, 12, 10, 15, 0, 0⟩ "cal down" rfl rfl (Or.inl rfl)
    (by decide) (fun _ => rfl) rfl

/-- C6 counterexample: schedule resolution on an absent EventTracking is
reported as a FAILURE ("Event not found"), not as success as the claim
states. -/
theorem C6_counterexample :
    (handle_schedule_request envPlain "E404" "C1" "111.222" "12/10 15:00" []).result =
      .ok { success := false, error := some "Event not found" } := rfl

/-- C6 amended: an absent EventTracking makes record-reaction a benign
success no-op; it makes schedule-resolution a failure-reported no-op with
no state mutation and no posts; and an absent Topic during schedule
resolution raises, which is caught and reported as a failure with an error
notice posted and no state mutation. -/
theorem C6_not_found_noop :
    (∀ (env : ReactionEnv) (ev : ReactionEventData) (db : DB),
      (truthy ev.reaction && truthy ev.user && truthy ev.channel && truthy ev.ts) = true →
      get_event_by_message db (ev.ts.getD "") (ev.channel.getD "") = none →
      handle_reaction_added env ev db =
        ({ success := true, action := some "ignored", reason := some "not tracked" },
         db, [])) ∧
    (∀ (env : ScheduleEnv) (i ch th text : String) (db : DB),
      get_event db i = none →
      handle_schedule_request env i ch th text db =
        ⟨.ok { success := false, error := some "Event not found" }, db, [], []⟩) ∧
    (∀ (env : ScheduleEnv) (et : EventTracking) (ch th text : String) (dt : PDateTime),
      et.status = "scheduling" →
      (extract_datetime_from_message env.currentYear text).1 = some dt →
      truthy et.topic_id = true →
      env.getTopic (et.topic_id.getD "") = none →
      env.post ⟨ch, errorOccurredText, some th⟩ = .ok () →
      handle_schedule_request env et.event_tracking_id ch th text [et] =
        ⟨.ok { success := false, error := some noneGetMsg }, [et],
         [⟨ch, errorOccurredText, some th⟩], []⟩) := by
  refine ⟨?_, ?_, ?_⟩
  · intro env ev db hval hnf
    simp [handle_reaction_added, hval, hnf]
  · intro env i ch th text db hnf
    simp [handle_schedule_request, handle_schedule_request_body, hnf]
  · intro env et ch th text dt hst hdt ht htp hpost
    simp [handle_schedule_request, handle_schedule_request_body, get_event,
      hst, hdt, ht, htp, hpost]

theorem C6_not_found_witness :
    handle_reaction_added ⟨3, fun u => .ok u, .ok true, "T0"⟩
        ⟨some "+1", some "U1", some "C9", some "9.9"⟩ [] =
      ({ success := true, action := some "ignored", reason := some "not tracked" },
       [], []) ∧
    handle_schedule_request envPlain "E404" "C1" "111.222" "12/10 15:00" [] =
      ⟨.ok { success := false, error := some "Event not found" }, [], [], []⟩ ∧
    handle_schedule_request envCalFail etSchedTopic.event_tracking_id "C1" "111.222"
        "12/10 15:00" [etSchedTopic] =
      ⟨.ok { success := false, error := some noneGetMsg }, [etSchedTopic],
       [⟨"C1", errorOccurredText, some "111.222"⟩], []⟩ :=
  ⟨C6_not_found_noop.1 _ _ _ rfl rfl,
   C6_not_found_noop.2.1 envPlain "E404" "C1" "111.222" "12/10 15:00" [] rfl,
   C6_not_found_noop.2.2 envCalFail etSchedTopic "C1" "111.222" "12/10 15:00"
     ⟨2025, 12, 10, 15, 0, 0⟩ rfl rfl rfl rfl rfl⟩

/-- C2: a recorded reaction that brings the distinct-reactor count to or
past the threshold on an item still in collecting_reactions makes the
handler post exactly one meeting-proposal message, threaded on the original
post, whose body states the participant count, and (the chat gateway
acknowledging the post) transition the record to scheduling. -/
theorem C2_threshold_proposal (env : ReactionEnv) (et : EventTracking)
    (u r email : String)
    (hu : u ≠ "") (hr : r ≠ "")
    (hch : et.channel_id ≠ "") (hts : et.slack_message_ts ≠ "")
    (hmail : env.userInfo u = .ok email)
    (hst : et.status = "collecting_reactions")
    (hcnt : env.threshold ≤ distinctUserCount (et.reactions ++ [⟨u, email, r, env.now⟩]))
    (hpost : env.postResult = .ok true) :
    handle_reaction_added env ⟨some r, some u, some et.channel_id, some et.slack_message_ts⟩ [et] =
      ({ success := true, action := some "meeting_proposed",
         reaction_count := some (distinctUserCount (et.reactions ++ [⟨u, email, r, env.now⟩])) },
       [{ et with reactions := et.reactions ++ [⟨u, email, r, env.now⟩],
                  status := "scheduling" }],
       [⟨et.channel_id,
         proposalText (distinctUserCount (et.reactions ++ [⟨u, email, r, env.now⟩])),
         some et.slack_message_ts⟩]) := by
  simp [handle_reaction_added, truthy, get_event_by_message, get_event,
    add_reaction_to_event, update_event_status, List.find?,
    hu, hr, hch, hts, hmail, hst, hcnt, hpost, Option.none_orElse]

/-- C10: when the chat gateway returns a not-ok response to the proposal
post, no status transition happens (the record keeps collecting_reactions
with only the reaction appended) and the handler still reports success with
action reaction_recorded. -/
theorem C10_not_ok_post (env : ReactionEnv) (et : EventTracking)
    (u r email : String)
    (hu : u ≠ "") (hr : r ≠ "")
    (hch : et.channel_id ≠ "") (hts : et.slack_message_ts ≠ "")
    (hmail : env.userInfo u = .ok email)
    (hst : et.status = "collecting_reactions")
    (hcnt : env.threshold ≤ distinctUserCount (et.reactions ++ [⟨u, email, r, env.now⟩]))
    (hpost : env.postResult = .ok false) :
    handle_reaction_added env ⟨some r, some u, some et.channel_id, some et.slack_message_ts⟩ [et] =
      ({ success := true, action := some "reaction_recorded",
         reaction_count := some (distinctUserCount (et.reactions ++ [⟨u, email, r, env.now⟩])) },
       [{ et with reactions := et.reactions ++ [⟨u, email, r, env.now⟩] }],
       [⟨et.channel_id,
         proposalText (distinctUserCount (et.reactions ++ [⟨u, email, r, env.now⟩])),
         some et.slack_message_ts⟩]) := by
  simp [handle_reaction_added, truthy, get_event_by_message, get_event,
    add_reaction_to_event, List.find?,
    hu, hr, hch, hts, hmail, hst, hcnt, hpost]

lemma reaction_step_scheduling (env : ReactionEnv) (ev : ReactionEventData)
    (et : EventTracking) (hst : et.status = "scheduling") :
    (handle_reaction_added env ev [et]).2.2 = [] ∧
    ∃ et', (handle_reaction_added env ev [et]).2.1 = [et'] ∧
      et'.status = "scheduling" := by
  have hbe : (("scheduling" : String) == "collecting_reactions") = false := rfl
  by_cases hval : (truthy ev.reaction && truthy ev.user && truthy ev.channel &&
      truthy ev.ts) = true
  · by_cases hfind : (et.slack_message_ts == ev.ts.getD "" &&
        et.channel_id == ev.channel.getD "") = true
    · cases hui : env.userInfo (ev.user.getD "") with
      | error e =>
        refine ⟨?_, et, ?_, hst⟩ <;>
          simp [handle_reaction_added, get_event_by_message, List.find?,
            hval, hfind, hui]
      | ok em =>
        refine ⟨?_, { et with reactions := et.reactions ++ [⟨ev.user.getD "", em, ev.reaction.getD "", env.now⟩] }, ?_, by simp [hst]⟩ <;>
          simp [handle_reaction_added, get_event_by_message, get_event,
            add_reaction_to_event, List.find?, hval, hfind, hui, hst, hbe]
    · have hfind' : (et.slack_message_ts == ev.ts.getD "" &&
          et.channel_id == ev.channel.getD "") = false := by simpa using hfind
      refine ⟨?_, et, ?_, hst⟩ <;>
        simp [handle_reaction_added, get_event_by_message, List.find?, hval, hfind']
  · have hval' : (truthy ev.reaction && truthy ev.user && truthy ev.channel &&
        truthy ev.ts) = false := by simpa using hval
    refine ⟨?_, et, ?_, hst⟩ <;> simp [handle_reaction_added, hval']

/-- C3: once an EventTracking is in scheduling, any further sequence of
reaction-added deliveries posts no message at all (in particular no second
proposal) and leaves the status at scheduling. -/
theorem C3_no_reproposal (ops : List (ReactionEnv × ReactionEventData))
    (et : EventTracking) (hst : et.status = "scheduling") :
    (runReactionOps ops [et]).2.1 = [] ∧
    ∃ et', (runReactionOps ops [et]).1 = [et'] ∧ et'.status = "scheduling" := by
  induction ops generalizing et with
  | nil => exact ⟨rfl, et, rfl, hst⟩
  | cons p rest ih =>
    obtain ⟨penv, pev⟩ := p
    obtain ⟨hps, et1, hdb, hst1⟩ := reaction_step_scheduling penv pev et hst
    have hsplit : handle_reaction_added penv pev [et] =
        ((handle_reaction_added penv pev [et]).1, [et1], []) := by
      rw [← hdb, ← hps]
    obtain ⟨hps2, et2, hdb2, hst2⟩ := ih et1 hst1
    have hrun : runReactionOps ((penv, pev) :: rest) [et] =
        ((runReactionOps rest [et1]).1,
         [] ++ (runReactionOps rest [et1]).2.1,
         (handle_reaction_added penv pev [et]).1 :: (runReactionOps rest [et1]).2.2) := by
      conv_lhs => rw [runReactionOps]
      rw [hsplit]
    refine ⟨?_, et2, ?_, hst2⟩
    · rw [hrun]
      simpa using hps2
    · rw [hrun]
      exact hdb2




lemma reaction_step_wf (env : ReactionEnv) (ev : ReactionEventData)
    (et : EventTracking)
    (h : WfOp et.slack_message_ts et.channel_id (env, ev)) :
    ∃ em et1,
      env.userInfo (ev.user.getD "") = .ok em ∧
      (handle_reaction_added env ev [et]).2.1 = [et1] ∧
      et1.slack_message_ts = et.slack_message_ts ∧
      et1.channel_id = et.channel_id ∧
      et1.reactions = et.reactions ++
        [⟨ev.user.getD "", em, ev.reaction.getD "", env.now⟩] ∧
      (∀ b, env.postResult = .ok b →
        (handle_reaction_added env ev [et]).1.reaction_count =
          some (distinctUserCount et1.reactions)) := by
  obtain ⟨hvr, hvu, hcheq, hchne, htseq, htsne, em, hui⟩ := h
  dsimp only at hvr hvu hcheq htseq hui
  have hval : (truthy ev.reaction && truthy ev.user && truthy ev.channel &&
      truthy ev.ts) = true := by
    rw [hvr, hvu, hcheq, htseq]
    simp [truthy, hchne, htsne]
  have hfind : (et.slack_message_ts == ev.ts.getD "" &&
      et.channel_id == ev.channel.getD "") = true := by
    rw [htseq, hcheq]
    simp
  by_cases hcond : env.threshold ≤ distinctUserCount (et.reactions ++
      [⟨ev.user.getD "", em, ev.reaction.getD "", env.now⟩]) ∧
      et.status = "collecting_reactions"
  · cases hpr : env.postResult with
    | error e =>
      refine ⟨em, appendReaction et (ev.user.getD "") em (ev.reaction.getD "") env.now,
        hui, ?_, rfl, rfl, rfl, ?_⟩
      · simp [handle_reaction_added, appendReaction, get_event_by_message, get_event,
          add_reaction_to_event, List.find?, hval, hfind, hui, hcond.1, hcond.2, hpr]
      · intro b hb
        simp at hb
    | ok okb =>
      cases okb with
      | true =>
        refine ⟨em,
          { appendReaction et (ev.user.getD "") em (ev.reaction.getD "") env.now with
            status := "scheduling" },
          hui, ?_, rfl, rfl, rfl, ?_⟩
        · simp [handle_reaction_added, appendReaction, get_event_by_message, get_event,
            add_reaction_to_event, update_event_status, List.find?,
            hval, hfind, hui, hcond.1, hcond.2, hpr, Option.none_orElse]
        · intro b hb
          simp [handle_reaction_added, appendReaction, get_event_by_message, get_event,
            add_reaction_to_event, List.find?, hval, hfind, hui, hcond.1, hcond.2, hpr]
      | false =>
        refine ⟨em, appendReaction et (ev.user.getD "") em (ev.reaction.getD "") env.now,
          hui, ?_, rfl, rfl, rfl, ?_⟩
        · simp [handle_reaction_added, appendReaction, get_event_by_message, get_event,
            add_reaction_to_event, List.find?, hval, hfind, hui, hcond.1, hcond.2, hpr]
        · intro b hb
          simp [handle_reaction_added, appendReaction, get_event_by_message, get_event,
            add_reaction_to_event, List.find?, hval, hfind, hui, hcond.1, hcond.2, hpr]
  · refine ⟨em, appendReaction et (ev.user.getD "") em (ev.reaction.getD "") env.now,
      hui, ?_, rfl, rfl, rfl, ?_⟩
    · simp [handle_reaction_added, appendReaction, get_event_by_message, get_event,
        add_reaction_to_event, List.find?, hval, hfind, hui, hcond]
    · intro b hb
      simp [handle_reaction_added, appendReaction, get_event_by_message, get_event,
        add_reaction_to_event, List.find?, hval, hfind, hui, hcond]

lemma runReactionOps_wf (ops : List (ReactionEnv × ReactionEventData))
    (et : EventTracking)
    (h : ∀ p ∈ ops, WfOp et.slack_message_ts et.channel_id p) :
    ∃ et', (runReactionOps ops [et]).1 = [et'] ∧
      et'.slack_message_ts = et.slack_message_ts ∧
      et'.channel_id = et.channel_id ∧
      et'.reactions.map (·.user_id) = et.reactions.map (·.user_id) ++ ops.map opUser := by
  induction ops generalizing et with
  | nil => exact ⟨et, rfl, rfl, rfl, by simp⟩
  | cons p rest ih =>
    obtain ⟨penv, pev⟩ := p
    obtain ⟨em, et1, hui, hdb, hts1, hch1, hre1, _⟩ :=
      reaction_step_wf penv pev et (h _ (by simp))
    have hsplit : handle_reaction_added penv pev [et] =
        ((handle_reaction_added penv pev [et]).1, [et1],
         (handle_reaction_added penv pev [et]).2.2) := by
      rw [← hdb]
    have hrest : ∀ q ∈ rest, WfOp et1.slack_message_ts et1.channel_id q := by
      intro q hq
      rw [hts1, hch1]
      exact h q (by simp [hq])
    obtain ⟨et2, hdb2, hts2, hch2, hmap2⟩ := ih et1 hrest
    have hrun : (runReactionOps ((penv, pev) :: rest) [et]).1 =
        (runReactionOps rest [et1]).1 := by
      conv_lhs => rw [runReactionOps]
      rw [hsplit]
    refine ⟨et2, ?_, by rw [hts2, hts1], by rw [hch2, hch1], ?_⟩
    · rw [hrun, hdb2]
    · rw [hmap2, hre1]
      simp [opUser]

/-- C1: over any sequence of well-formed reaction-added deliveries on a
fresh EventTracking, the recorded reactions carry exactly the acting users
in order, and the count computed and reported by the last operation equals
the number of distinct acting-user identifiers among all recorded records;
when the last delivery repeats an earlier user the reported count equals
the count over the earlier users alone. -/
theorem C1_distinct_count (ops : List (ReactionEnv × ReactionEventData))
    (op : ReactionEnv × ReactionEventData) (et0 : EventTracking)
    (hfresh : et0.reactions = [])
    (hwf : ∀ p ∈ ops ++ [op], WfOp et0.slack_message_ts et0.channel_id p)
    (b : Bool) (hpost : op.1.postResult = .ok b) :
    ∃ et2,
      (handle_reaction_added op.1 op.2 (runReactionOps ops [et0]).1).2.1 = [et2] ∧
      et2.reactions.map (·.user_id) = (ops ++ [op]).map opUser ∧
      (handle_reaction_added op.1 op.2 (runReactionOps ops [et0]).1).1.reaction_count =
        some (((ops ++ [op]).map opUser).toFinset.card) ∧
      (opUser op ∈ ops.map opUser →
        (handle_reaction_added op.1 op.2 (runReactionOps ops [et0]).1).1.reaction_count =
          some ((ops.map opUser).toFinset.card)) := by
  obtain ⟨et1, hdb1, hts1, hch1, hmap1⟩ :=
    runReactionOps_wf ops et0 (fun p hp => hwf p (by simp [hp]))
  obtain ⟨openv, opev⟩ := op
  dsimp only at hpost ⊢
  obtain ⟨em, et2, hui, hdb2, hts2, hch2, hre2, hcnt⟩ :=
    reaction_step_wf openv opev et1 (by rw [hts1, hch1]; exact hwf _ (by simp))
  have huid : et2.reactions.map (·.user_id) = (ops ++ [(openv, opev)]).map opUser := by
    rw [hre2, List.map_append, hmap1, hfresh]
    simp [opUser]
  have hc := hcnt b hpost
  have hdd : distinctUserCount et2.reactions =
      ((ops ++ [(openv, opev)]).map opUser).toFinset.card := by
    simp only [distinctUserCount]
    rw [huid]
    exact (List.card_toFinset _).symm
  refine ⟨et2, ?_, huid, ?_, ?_⟩
  · rw [hdb1]
    exact hdb2
  · rw [hdb1, hc, hdd]
  · intro hmem
    rw [hdb1, hc, hdd]
    have hset : ((ops ++ [(openv, opev)]).map opUser).toFinset =
        (ops.map opUser).toFinset := by
      rw [List.map_append, List.toFinset_append]
      apply Finset.union_eq_left.mpr
      simpa using hmem
    rw [hset]







theorem C2_witness :
    handle_reaction_added (envR (.ok true))
        ⟨some "+1", some "U3", some etCollect.channel_id, some etCollect.slack_message_ts⟩
        [etCollect] =
      ({ success := true, action := some "meeting_proposed", reaction_count := some 3 },
       [{ etCollect with
          reactions := etCollect.reactions ++ [⟨"U3", "U3@example.com", "+1", "T0"⟩],
          status := "scheduling" }],
       [⟨"C1", proposalText 3, some "111.222"⟩]) :=
  C2_threshold_proposal (envR (.ok true)) etCollect "U3" "+1" "U3@example.com"
    (by decide) (by decide) (by decide) (by decide) rfl rfl (by decide) rfl

theorem C10_witness :
    handle_reaction_added (envR (.ok false))
        ⟨some "+1", some "U3", some etCollect.channel_id, some etCollect.slack_message_ts⟩
        [etCollect] =
      ({ success := true, action := some "reaction_recorded", reaction_count := some 3 },
       [{ etCollect with
          reactions := etCollect.reactions ++ [⟨"U3", "U3@example.com", "+1", "T0"⟩] }],
       [⟨"C1", proposalText 3, some "111.222"⟩]) :=
  C10_not_ok_post (envR (.ok false)) etCollect "U3" "+1" "U3@example.com"
    (by decide) (by decide) (by decide) (by decide) rfl rfl (by decide) rfl

theorem C3_witness :
    (runReactionOps [(envR (.ok true), evR "U7"), (envR (.error "down"), evR "U8")]
      [etSched]).2.1 = [] ∧
    ∃ et', (runReactionOps [(envR (.ok true), evR "U7"), (envR (.error "down"), evR "U8")]
      [etSched]).1 = [et'] ∧ et'.status = "scheduling" :=
  C3_no_reproposal [(envR (.ok true), evR "U7"), (envR (.error "down"), evR "U8")]
    etSched rfl

theorem C1_witness :
    ∃ et2,
      (handle_reaction_added wOp.1 wOp.2 (runReactionOps wOps [etFresh]).1).2.1 = [et2] ∧
      et2.reactions.map (·.user_id) = (wOps ++ [wOp]).map opUser ∧
      (handle_reaction_added wOp.1 wOp.2 (runReactionOps wOps [etFresh]).1).1.reaction_count =
        some (((wOps ++ [wOp]).map opUser).toFinset.card) ∧
      (opUser wOp ∈ wOps.map opUser →
        (handle_reaction_added wOp.1 wOp.2 (runReactionOps wOps [etFresh]).1).1.reaction_count =
          some ((wOps.map opUser).toFinset.card)) :=
  C1_distinct_count wOps wOp etFresh rfl
    (by
      intro p hp
      simp [wOps, wOp] at hp
      rcases hp with rfl | rfl | rfl <;>
        exact ⟨rfl, rfl, rfl, by decide, rfl, by decide, _, rfl⟩)
    true rfl
